import Mathlib

/-!
# Verification of the HackYeah EEG analysis pipeline

A shallow embedding of the analytic core of the repository:

* `Stress.py` — `StressClassifier.get_stress_percentage`
* `TirednessRegression.py` — `TirednessClassifier.get_tiredness_percentage`
* `Attention.py` — `AttentionClassifier.get_attention_percentage`
* `models/BlinkingClassifier.py` and `BlinkingClassifier.py` —
  `BlinkingClassifier.detect_blink_in_chunk`
* `main.py` — `EEGUDPProtocol.datagram_received` / `run_analysis`

Python floats are modelled as rationals; NaN (which arises from
`np.mean` of an empty selection) is modelled by `Option ℚ` with `none`
playing the role of NaN.  Exceptions are modelled by `Except PyErr`.
External library primitives whose numeric output is irrelevant to the
claims (the MNE FIR filter, Welch's PSD, the 8-byte float decoding) are
taken as function parameters; everything the repository itself computes
is translated line by line.
-/

/-- Python exception kinds that the modelled code can raise. -/
inductive PyErr where
  | valueError
  | attributeError
  | typeError
  deriving DecidableEq, Repr

deriving instance DecidableEq for Except

/-- A Python float: `none` models NaN (the only non-finite value the
pipeline can produce, via `np.mean` of an empty slice). -/
abbrev PyF := Option ℚ

/-- Embed a finite rational as a Python float. -/
def pf (q : ℚ) : PyF := some q

/-- Lift a binary arithmetic operation to Python floats; NaN operands
propagate NaN, as in IEEE arithmetic. -/
def pfBin (f : ℚ → ℚ → ℚ) : PyF → PyF → PyF
  | some a, some b => some (f a b)
  | _, _ => none

/-- Python float addition (NaN-propagating). -/
def pfAdd : PyF → PyF → PyF := pfBin (· + ·)

/-- Python float subtraction (NaN-propagating). -/
def pfSub : PyF → PyF → PyF := pfBin (· - ·)

/-- Python float multiplication (NaN-propagating). -/
def pfMul : PyF → PyF → PyF := pfBin (· * ·)

/-- Python float division (NaN-propagating; the zero-denominator case is
unreachable in the modelled code because every division sits behind the
`denominator < 1e-12` guard). -/
def pfDiv : PyF → PyF → PyF := pfBin (· / ·)

/-- Python `<` on floats: any comparison involving NaN is `False`. -/
def pyLt : PyF → PyF → Bool
  | some a, some b => decide (a < b)
  | _, _ => false

/-- Python `<=` on floats: any comparison involving NaN is `False`. -/
def pyLe : PyF → PyF → Bool
  | some a, some b => decide (a ≤ b)
  | _, _ => false

/-- The `1e-12` epsilon guarding ratio denominators in `Stress.py` line
65 and `TirednessRegression.py` line 53. -/
def EPS : ℚ := 1 / 10 ^ 12

/-- The channel labels hard-wired as `ch_names` inside
`get_stress_percentage` (Stress.py line 41), `get_tiredness_percentage`
(TirednessRegression.py line 34) and `detect_blink_in_chunk`
(models/BlinkingClassifier.py line 38). -/
def ch_names : List String := ["Fp1", "Fp2", "O1", "O2"]

/-- `np.mean` over a flat list of values: NaN (`none`) on an empty
list, the arithmetic mean otherwise. -/
def npMean (l : List ℚ) : PyF :=
  if l.isEmpty then none else some (l.sum / l.length)

/-- The values selected by `psd[:, (freqs >= low) & (freqs < high)]`:
for every PSD row, the entries whose corresponding frequency lies in
`[low, high)`, flattened row-major. -/
def bandSelect (psd : List (List ℚ)) (freqs : List ℚ) (low high : ℚ) : List ℚ :=
  (psd.map (fun row =>
    ((row.zip freqs).filter (fun pq => decide (low ≤ pq.2 ∧ pq.2 < high))).map
      Prod.fst)).flatten

/-- `np.mean(psd[:, (freqs >= low) & (freqs < high)])` — the band-power
expression of Stress.py lines 58-63 and TirednessRegression.py lines
43-51. -/
def band_power (psd : List (List ℚ)) (freqs : List ℚ) (low high : ℚ) : PyF :=
  npMean (bandSelect psd freqs low high)

/-- `raw.pick_channels(picks)` in the `psd_welch`-era MNE the repository
runs on (`ordered=False` picking, no `ordered` argument passed at the
call sites): keeps the rows of `data` whose label (in `names` order)
occurs in `picks`, silently dropping requested labels that are absent;
it raises only when the resulting selection is empty (no channel
matches). -/
def pick_channels (names : List String) (data : List (List ℚ))
    (picks : List String) : Except PyErr (List (List ℚ)) :=
  let sel := (names.zip data).filter (fun nd => picks.contains nd.1)
  if sel.isEmpty then .error .valueError
  else .ok (sel.map Prod.snd)

/-- The linear-ramp normalization of Stress.py lines 71-79 and
TirednessRegression.py lines 59-67, read over exact rationals. -/
def rampPercentage (low high ratio : ℚ) : ℚ :=
  if ratio ≤ low then 0
  else if high ≤ ratio then 100
  else (ratio - low) / (high - low) * 100

/-- `StressClassifier` state: exactly the attributes stored by
`__init__` (Stress.py lines 26-29). -/
structure StressClassifier where
  sfreq : ℚ
  channels : List String
  calm_threshold : ℚ
  stress_threshold : ℚ
  deriving DecidableEq, Repr

/-- `StressClassifier.__init__` (Stress.py lines 14-29): stores its
arguments and performs no validation, so it can never raise. -/
def StressClassifier.init (sfreq : ℚ) (channels : List String)
    (calm_threshold stress_threshold : ℚ) : Except PyErr StressClassifier :=
  .ok ⟨sfreq, channels, calm_threshold, stress_threshold⟩

/-- `TirednessClassifier` state: exactly the attributes stored by
`__init__` (TirednessRegression.py lines 24-27). -/
structure TirednessClassifier where
  sfreq : ℚ
  channels : List String
  alert_threshold : ℚ
  tired_threshold : ℚ
  deriving DecidableEq, Repr

/-- `TirednessClassifier.__init__` (TirednessRegression.py lines 18-27):
stores its arguments and performs no validation, so it can never
raise. -/
def TirednessClassifier.init (sfreq : ℚ) (channels : List String)
    (alert_threshold tired_threshold : ℚ) : Except PyErr TirednessClassifier :=
  .ok ⟨sfreq, channels, alert_threshold, tired_threshold⟩

/-- `StressClassifier.get_stress_percentage` (Stress.py lines 31-81).
`psd_welch` abstracts `mne.time_frequency.psd_welch` (returning the
`(psd, freqs)` pair) and `filt` abstracts the per-channel 8-30 Hz FIR
filter of lines 47-52; both are library calls.  The shape check models
`mne.io.RawArray` rejecting a data array whose row count differs from
the 4 configured channels. -/
def get_stress_percentage (psd_welch : List (List ℚ) → List (List ℚ) × List ℚ)
    (filt : List ℚ → List ℚ) (c : StressClassifier)
    (data_chunk : List (List ℚ)) : Except PyErr (PyF × PyF) :=
  if data_chunk.length = ch_names.length then
    match pick_channels ch_names data_chunk c.channels with
    | .error e => .error e
    | .ok picked =>
      let filtered := picked.map filt
      let pr := psd_welch filtered
      let alpha_power := band_power pr.1 pr.2 8 13
      let beta_power := band_power pr.1 pr.2 13 30
      if pyLt alpha_power (pf EPS) then .ok (pf 0, pf 0)
      else
        let ratio := pfDiv beta_power alpha_power
        let percentage :=
          if pyLe ratio (pf c.calm_threshold) then pf 0
          else if pyLe (pf c.stress_threshold) ratio then pf 100
          else
            pfMul (pfDiv (pfSub ratio (pf c.calm_threshold))
              (pfSub (pf c.stress_threshold) (pf c.calm_threshold))) (pf 100)
        .ok (percentage, ratio)
  else .error .valueError

/-- `TirednessClassifier.get_tiredness_percentage`
(TirednessRegression.py lines 29-69); identical pipeline except that no
band-pass filter precedes the PSD and the ratio is
`(alpha + theta) / beta`. -/
def get_tiredness_percentage
    (psd_welch : List (List ℚ) → List (List ℚ) × List ℚ)
    (c : TirednessClassifier) (data_chunk : List (List ℚ)) :
    Except PyErr (PyF × PyF) :=
  if data_chunk.length = ch_names.length then
    match pick_channels ch_names data_chunk c.channels with
    | .error e => .error e
    | .ok picked =>
      let pr := psd_welch picked
      let alpha_power := band_power pr.1 pr.2 8 13
      let theta_power := band_power pr.1 pr.2 4 8
      let beta_power := band_power pr.1 pr.2 13 30
      if pyLt beta_power (pf EPS) then .ok (pf 0, pf 0)
      else
        let ratio := pfDiv (pfAdd alpha_power theta_power) beta_power
        let percentage :=
          if pyLe ratio (pf c.alert_threshold) then pf 0
          else if pyLe (pf c.tired_threshold) ratio then pf 100
          else
            pfMul (pfDiv (pfSub ratio (pf c.alert_threshold))
              (pfSub (pf c.tired_threshold) (pf c.alert_threshold))) (pf 100)
        .ok (percentage, ratio)
  else .error .valueError

/-- `AttentionClassifier.get_attention_percentage` (Attention.py lines
11-18): always returns the placeholder `(50.0, 0.0)`. -/
def get_attention_percentage (_data_chunk : List (List ℚ)) :
    Except PyErr (PyF × PyF) :=
  .ok (pf 50, pf 0)

/-! ## Blink detection (`models/BlinkingClassifier.py`, `BlinkingClassifier.py`) -/

/-- Python list slicing `l[start:stop]` (step 1): negative indices count
from the end, and both endpoints are clamped into `[0, len]`. -/
def pySliceIdx (len : ℕ) (i : ℤ) : ℕ :=
  if i < 0 then ((len : ℤ) + i).toNat.min len else i.toNat.min len

/-- Python slice `l[start:stop]`. -/
def pySlice {α : Type} (l : List α) (start stop : ℤ) : List α :=
  (l.take (pySliceIdx l.length stop)).drop (pySliceIdx l.length start)

/-- Plateau scan of scipy's `_local_maxima_1d`: starting at `i_ahead`,
advance while inside `[.., i_max)` and the signal still equals the
candidate peak value `v`. -/
def scanAhead (x : List ℚ) (v : ℚ) (i_max : ℕ) : ℕ → ℕ → ℕ
  | i_ahead, 0 => i_ahead
  | i_ahead, fuel + 1 =>
    if i_ahead < i_max ∧ x.getD i_ahead 0 = v then
      scanAhead x v i_max (i_ahead + 1) fuel
    else i_ahead

/-- Main loop of scipy's `_local_maxima_1d`: emits the midpoint of every
strict local maximum (plateaus allowed), scanning interior indices
`1 ≤ i < i_max = length - 1`.  `fuel` bounds the iteration count; the
caller supplies `length + 1`, which is always sufficient because `i`
strictly increases. -/
def lmLoop (x : List ℚ) (i_max : ℕ) : ℕ → ℕ → List ℕ
  | _, 0 => []
  | i, fuel + 1 =>
    if i < i_max then
      if x.getD (i - 1) 0 < x.getD i 0 then
        let i_ahead := scanAhead x (x.getD i 0) i_max (i + 1) x.length
        if x.getD i_ahead 0 < x.getD i 0 then
          (i + (i_ahead - 1)) / 2 :: lmLoop x i_max (i_ahead + 1) fuel
        else lmLoop x i_max (i + 1) fuel
      else lmLoop x i_max (i + 1) fuel
    else []

/-- Midpoints of all local maxima of `x` (scipy `_local_maxima_1d`);
the first and last sample can never be maxima. -/
def local_maxima_midpoints (x : List ℚ) : List ℕ :=
  lmLoop x (x.length - 1) 1 (x.length + 1)

/-- Stable ascending argsort of a priority list (numpy `argsort` with a
stable sort): ties are broken by the original position. -/
def argsortAsc (vals : List ℚ) : List ℕ :=
  (List.range vals.length).mergeSort (fun i j =>
    decide (vals.getD i 0 < vals.getD j 0 ∨
      (vals.getD i 0 = vals.getD j 0 ∧ i ≤ j)))

/-- scipy `_select_by_peak_distance`: walk the peaks from highest to
lowest priority; every still-kept peak removes all *other* peaks whose
position differs from it by less than `distance`.  (The peak positions
are ascending, so scanning both neighbourhoods until the first far-away
peak — as the C loop does — removes exactly this set.)  Returns the
keep mask. -/
def select_by_peak_distance (peaks : List ℕ) (priority : List ℚ)
    (distance : ℕ) : List Bool :=
  ((argsortAsc priority).reverse).foldl (fun keep j =>
    if keep.getD j false then
      (List.range peaks.length).map (fun k =>
        if k = j then true
        else if ((peaks.getD j 0 : ℤ) - (peaks.getD k 0 : ℤ)).natAbs < distance
          then false
        else keep.getD k false)
    else keep)
    (List.replicate peaks.length true)

/-- `scipy.signal.find_peaks(x, height=h, distance=d)`: local-maxima
midpoints, filtered by `x[peak] >= h`, then thinned by the minimum
inter-peak distance (highest peaks win). -/
def find_peaks (x : List ℚ) (height : ℚ) (distance : ℕ) : List ℕ :=
  let peaks := (local_maxima_midpoints x).filter
    (fun p => decide (height ≤ x.getD p 0))
  let keep := select_by_peak_distance peaks (peaks.map (fun p => x.getD p 0))
    distance
  ((peaks.zip keep).filter (fun pk => pk.2)).map Prod.fst

/-- `BlinkingClassifier` state: the attributes common to both copies of
the class (`sfreq`, `channel`, `threshold_uv`, `refractory_samples`). -/
structure BlinkingClassifier where
  sfreq : ℚ
  channel : String
  threshold_uv : ℚ
  refractory_samples : ℕ
  deriving DecidableEq, Repr

/-- The target-channel signal in µV after scaling and filtering: channel
`i` of the window scaled to volts (`apply_function(x * 1e-6)`), passed
through the band-pass filter, and read back `* 1e6`. -/
def blink_channel_data_uv (filt : List ℚ → List ℚ)
    (data_window : List (List ℚ)) (i : ℕ) : List ℚ :=
  (((data_window.map (List.map (· * (1 / 1000000)))).map filt).getD i []).map
    (· * 1000000)

/-- The centred `analysis_duration_samples`-long slice
`channel_data_uv[margin : margin + analysis_duration_samples]` with
`margin = (total_samples - analysis_duration_samples) // 2` (Python
floor division and slice semantics). -/
def blink_central_data (channel_data_uv : List ℚ)
    (analysis_duration_samples : ℕ) : List ℚ :=
  let total_samples := channel_data_uv.length
  let margin : ℤ :=
    Int.fdiv ((total_samples : ℤ) - (analysis_duration_samples : ℤ)) 2
  pySlice channel_data_uv margin (margin + analysis_duration_samples)

/-- `len(peaks) > 0` for the peaks of the rectified central segment of
channel `i`. -/
def blink_decision (filt : List ℚ → List ℚ) (c : BlinkingClassifier)
    (data_window : List (List ℚ)) (analysis_duration_samples i : ℕ) : Bool :=
  decide ((find_peaks
    ((blink_central_data (blink_channel_data_uv filt data_window i)
      analysis_duration_samples).map (fun q => |q|))
    c.threshold_uv c.refractory_samples).length > 0)

/-- The body of `detect_blink_in_chunk` shared by both copies of the
class, parameterized over the `ch_names` list each copy obtains in its
own way.  `filt` abstracts the 1-10 Hz FIR band-pass of the MNE
library; every other step is translated directly through
`blink_channel_data_uv`, `blink_central_data` and `blink_decision`. -/
def detect_blink_core (names : List String) (filt : List ℚ → List ℚ)
    (c : BlinkingClassifier) (data_window : List (List ℚ))
    (analysis_duration_samples : ℕ) : Except PyErr Bool :=
  if data_window.length = names.length then
    match List.indexOf? c.channel names with
    | none => .error .valueError
    | some i =>
      .ok (blink_decision filt c data_window analysis_duration_samples i)
  else .error .valueError

/-- `BlinkingClassifier.detect_blink_in_chunk` of
`models/BlinkingClassifier.py` (lines 25-63): binds
`ch_names = ['Fp1','Fp2','O1','O2']` locally and runs the detection
pipeline. -/
def detect_blink_in_chunk (filt : List ℚ → List ℚ) (c : BlinkingClassifier)
    (data_window : List (List ℚ)) (analysis_duration_samples : ℕ) :
    Except PyErr Bool :=
  detect_blink_core ch_names filt c data_window analysis_duration_samples

/-- A Python attribute value stored on a `BlinkingClassifier` instance
(top-level `BlinkingClassifier.py`). -/
inductive PyAttr where
  | qval (q : ℚ)
  | sval (s : String)
  | nval (n : ℕ)
  | lval (l : List String)
  deriving DecidableEq, Repr

/-- The instance attribute dictionary produced by
`BlinkingClassifier.__init__` of the top-level `BlinkingClassifier.py`
(lines 19-23): note the list of channel labels is stored under
`channel_names`, not `ch_names`. -/
def src_blinker_dict (sfreq : ℚ) (channel : String) (threshold_uv : ℚ)
    (refractory_samples : ℕ) : List (String × PyAttr) :=
  [("sfreq", .qval sfreq), ("channel", .sval channel),
   ("threshold_uv", .qval threshold_uv),
   ("channel_names", .lval ["Fp1", "Fp2", "O1", "O2"]),
   ("refractory_samples", .nval refractory_samples)]

/-- Python attribute lookup on the instance dictionary: a missing name
raises `AttributeError`. -/
def pyGetattr (d : List (String × PyAttr)) (name : String) :
    Except PyErr PyAttr :=
  match d.lookup name with
  | some v => .ok v
  | none => .error .attributeError

/-- `BlinkingClassifier.detect_blink_in_chunk` of the top-level
`BlinkingClassifier.py` (lines 25-56): its first statement evaluates
`self.ch_names` (line 38), an attribute `__init__` never sets, so the
attribute lookup decides the call's fate before any data is touched. -/
def src_detect_blink_in_chunk (filt : List ℚ → List ℚ) (sfreq : ℚ)
    (channel : String) (threshold_uv : ℚ) (refractory_samples : ℕ)
    (data_window : List (List ℚ)) (analysis_duration_samples : ℕ) :
    Except PyErr Bool :=
  match pyGetattr (src_blinker_dict sfreq channel threshold_uv
      refractory_samples) "ch_names" with
  | .error e => .error e
  | .ok (.lval names) =>
    detect_blink_core names filt ⟨sfreq, channel, threshold_uv,
      refractory_samples⟩ data_window analysis_duration_samples
  | .ok _ => .error .typeError

/-! ## The orchestrator (`main.py`) -/

/-- `SAMPLING_RATE` (main.py line 24). -/
def SAMPLING_RATE : ℕ := 250

/-- `CHANNELS` (main.py line 25). -/
def CHANNELS : ℕ := 4

/-- `self.buffer_size = int(BUFFER_DURATION_SEC * SAMPLING_RATE)`
(main.py line 97): 5.0 s × 250 Hz. -/
def buffer_size : ℕ := 1250

/-- `self.analysis_samples` (main.py line 101): 1.0 s × 250 Hz. -/
def analysis_samples : ℕ := 250

/-- `self.tiredness_samples` (main.py line 102): 5.0 s × 250 Hz. -/
def tiredness_samples : ℕ := 1250

/-- `self.stress_samples` (main.py line 103): 5.0 s × 250 Hz. -/
def stress_samples : ℕ := 1250

/-- `self.blink_window_samples` (main.py line 104): 3.0 s × 250 Hz. -/
def blink_window_samples : ℕ := 750

/-- Split a byte list into consecutive 8-byte groups, dropping a
trailing partial group (only ever used after the `% 8` check). -/
def chunks8 {α : Type} : List α → List (List α)
  | a :: b :: c :: d :: e :: f :: g :: h :: rest =>
    [a, b, c, d, e, f, g, h] :: chunks8 rest
  | _ => []

/-- `np.frombuffer(data, dtype=np.float64)` (main.py line 117): raises
if the byte count is not a multiple of 8, otherwise decodes each 8-byte
group through the IEEE-754 reading `w64` (abstracted). -/
def np_frombuffer (w64 : List (Fin 256) → ℚ) (data : List (Fin 256)) :
    Except PyErr (List ℚ) :=
  if data.length % 8 = 0 then .ok ((chunks8 data).map w64)
  else .error .valueError

/-- `collections.deque(maxlen=maxlen).append`: append on the right and
drop from the left while over capacity. -/
def dequeAppend {α : Type} (maxlen : ℕ) (buf : List α) (x : α) : List α :=
  let l := buf ++ [x]
  l.drop (l.length - maxlen)

/-- Column `i` of `numpy_1d.reshape(CHANNELS, samples)` for every `i`:
the per-instant 4-channel sample vectors appended to the rolling buffer
by main.py lines 126-130. -/
def reshapeColumns (chans samples : ℕ) (vals : List ℚ) : List (List ℚ) :=
  (List.range samples).map (fun i =>
    (List.range chans).map (fun c => vals.getD (c * samples + i) 0))

/-- `EEGUDPProtocol.datagram_received` (main.py lines 111-140), state
restricted to the rolling buffer.  Returns the new buffer and whether
`run_analysis` was triggered.  A decoding failure is swallowed by the
`except` clause; an element count not divisible by `CHANNELS` only logs
a warning.  In both failure cases the buffer is untouched. -/
def datagram_received (w64 : List (Fin 256) → ℚ) (buf : List (List ℚ))
    (data : List (Fin 256)) : List (List ℚ) × Bool :=
  match np_frombuffer w64 data with
  | .error _ => (buf, false)
  | .ok numpy_1d =>
    if numpy_1d.length % CHANNELS = 0 then
      let samples := numpy_1d.length / CHANNELS
      let cols := reshapeColumns CHANNELS samples numpy_1d
      let buf2 := cols.foldl (dequeAppend buffer_size) buf
      (buf2, decide (buffer_size ≤ buf2.length))
    else (buf, false)

/-- `np.array(self.data_buffer).T` (main.py line 145): the rolling
buffer (a list of 4-channel instants) transposed into channel-major
form. -/
def npT (m : List (List ℚ)) : List (List ℚ) :=
  (List.range (m.headD []).length).map (fun c =>
    m.map (fun row => row.getD c 0))

/-- Python trailing slice `row[-n:]` for `n > 0`: the last
`min n (length)` entries (main.py's `np_buffer[:, -k:]` windows). -/
def lastN {α : Type} (n : ℕ) (row : List α) : List α :=
  row.drop (row.length - n)

/-- Round-half-to-even on an exact rational, as Python's `round` does
on the value a float denotes. -/
def roundHalfEven (q : ℚ) : ℤ :=
  if q - ⌊q⌋ < 1 / 2 then ⌊q⌋
  else if 1 / 2 < q - ⌊q⌋ then ⌊q⌋ + 1
  else if ⌊q⌋ % 2 = 0 then ⌊q⌋ else ⌊q⌋ + 1

/-- Python `round(x, ndigits)` lifted to Python floats
(`round(nan, n)` is NaN). -/
def pyRound (ndigits : ℕ) : PyF → PyF
  | some q => some ((roundHalfEven (q * 10 ^ ndigits) : ℚ) / 10 ^ ndigits)
  | none => none

/-- The record queued for broadcasting by `run_analysis` (main.py lines
199-203): a timestamp plus the four indicator results; every field is
present in every record. -/
structure AnalysisResult where
  timestamp : ℚ
  is_blinking : Bool
  tiredness_percentage : PyF
  tiredness_ratio : PyF
  stress_percentage : PyF
  stress_ratio : PyF
  attention_percentage : PyF
  deriving DecidableEq, Repr

/-- The four per-indicator `try/except` blocks of
`EEGUDPProtocol.run_analysis` (main.py lines 148-197), given the
outcome of each classifier call: an `Exception` escaping one classifier
is replaced by that indicator's default (`False`, `(0.0, 0.0)`,
`(0.0, 0.0)`, `0.0`) without touching the other entries; successful
values are rounded exactly as in the source. -/
def run_analysis (timestamp : ℚ) (blinkRes : Except PyErr Bool)
    (tiredRes stressRes attRes : Except PyErr (PyF × PyF)) : AnalysisResult :=
  let is_blinking := match blinkRes with
    | .ok b => b
    | .error _ => false
  let tiredness := match tiredRes with
    | .ok pr => (pyRound 2 pr.1, pyRound 3 pr.2)
    | .error _ => (pf 0, pf 0)
  let stress := match stressRes with
    | .ok pr => (pyRound 2 pr.1, pyRound 3 pr.2)
    | .error _ => (pf 0, pf 0)
  let attention := match attRes with
    | .ok pr => pyRound 2 pr.1
    | .error _ => pf 0
  ⟨timestamp, is_blinking, tiredness.1, tiredness.2, stress.1, stress.2,
    attention⟩

/-- `EEGUDPProtocol.run_analysis` (main.py lines 142-203) end to end:
transpose the buffer, slice the trailing window each classifier needs,
run the classifiers the protocol object constructed in `__init__`
(lines 87-94) — in particular the top-level `BlinkingClassifier` with
`threshold_uv=75` — and assemble the result record. -/
def run_analysis_main (psdS psdT : List (List ℚ) → List (List ℚ) × List ℚ)
    (filtS filtB : List ℚ → List ℚ) (timestamp : ℚ)
    (data_buffer : List (List ℚ)) : AnalysisResult :=
  let np_buffer := npT data_buffer
  let blinkRes := src_detect_blink_in_chunk filtB 250 "Fp1" 75 125
    (np_buffer.map (lastN blink_window_samples)) analysis_samples
  let tiredRes := get_tiredness_percentage psdT ⟨250, ["O1", "O2"], 1, 3⟩
    (np_buffer.map (lastN tiredness_samples))
  let stressRes := get_stress_percentage psdS filtS
    ⟨250, ["Fp1", "Fp2"], 1 / 2, 3 / 2⟩
    (np_buffer.map (lastN stress_samples))
  let attRes := get_attention_percentage np_buffer
  run_analysis timestamp blinkRes tiredRes stressRes attRes

/-! ## Helper lemmas on the ramp normalization -/

theorem rampPercentage_nonneg {low high : ℚ} (h : low < high) (r : ℚ) :
    0 ≤ rampPercentage low high r := by
  rw [rampPercentage]
  split_ifs with h1 h2
  · norm_num
  · norm_num
  · exact mul_nonneg (div_nonneg (by linarith [not_le.mp h1]) (by linarith))
      (by norm_num)

theorem rampPercentage_le_100 {low high : ℚ} (h : low < high) (r : ℚ) :
    rampPercentage low high r ≤ 100 := by
  rw [rampPercentage]
  split_ifs with h1 h2
  · norm_num
  · norm_num
  · have hd : 0 < high - low := by linarith
    rw [div_mul_eq_mul_div, div_le_iff₀ hd]
    nlinarith [not_le.mp h2]

theorem rampPercentage_mono {low high : ℚ} (h : low < high) :
    Monotone (rampPercentage low high) := by
  intro r1 r2 hr
  have hd : 0 < high - low := by linarith
  unfold rampPercentage
  split_ifs <;>
    first
      | linarith
      | (rw [div_mul_eq_mul_div, le_div_iff₀ hd]; nlinarith)
      | (rw [div_mul_eq_mul_div, div_le_iff₀ hd]; nlinarith)
      | (rw [div_mul_eq_mul_div, div_mul_eq_mul_div, div_le_div_iff₀ hd hd];
         nlinarith)

/-- When the Alpha (denominator) band power is a number `≥ 1e-12` and
the Beta band power is a number, `get_stress_percentage` returns the
ramp of the Beta/Alpha ratio together with the raw ratio. -/
theorem get_stress_percentage_ramp
    (psd_welch : List (List ℚ) → List (List ℚ) × List ℚ)
    (filt : List ℚ → List ℚ) (c : StressClassifier)
    (data_chunk picked : List (List ℚ)) (a b : ℚ)
    (hlen : data_chunk.length = 4)
    (hpick : pick_channels ch_names data_chunk c.channels = .ok picked)
    (ha : band_power (psd_welch (picked.map filt)).1
      (psd_welch (picked.map filt)).2 8 13 = some a)
    (hb : band_power (psd_welch (picked.map filt)).1
      (psd_welch (picked.map filt)).2 13 30 = some b)
    (heps : EPS ≤ a) :
    get_stress_percentage psd_welch filt c data_chunk =
      .ok (pf (rampPercentage c.calm_threshold c.stress_threshold (b / a)),
        pf (b / a)) := by
  rw [get_stress_percentage, if_pos (by rw [hlen]; rfl), hpick]
  simp only [ha, hb, pyLt, pyLe, pf, pfDiv, pfSub, pfMul, pfBin,
    decide_eq_true_eq, rampPercentage]
  rw [if_neg (not_lt.mpr heps)]
  split_ifs <;> rfl

/-- When the Beta (denominator) band power is a number `≥ 1e-12` and the
Alpha and Theta band powers are numbers, `get_tiredness_percentage`
returns the ramp of the (Alpha+Theta)/Beta ratio together with the raw
ratio. -/
theorem get_tiredness_percentage_ramp
    (psd_welch : List (List ℚ) → List (List ℚ) × List ℚ)
    (c : TirednessClassifier)
    (data_chunk picked : List (List ℚ)) (a t b : ℚ)
    (hlen : data_chunk.length = 4)
    (hpick : pick_channels ch_names data_chunk c.channels = .ok picked)
    (ha : band_power (psd_welch picked).1 (psd_welch picked).2 8 13 = some a)
    (ht : band_power (psd_welch picked).1 (psd_welch picked).2 4 8 = some t)
    (hb : band_power (psd_welch picked).1 (psd_welch picked).2 13 30 = some b)
    (heps : EPS ≤ b) :
    get_tiredness_percentage psd_welch c data_chunk =
      .ok (pf (rampPercentage c.alert_threshold c.tired_threshold
        ((a + t) / b)), pf ((a + t) / b)) := by
  rw [get_tiredness_percentage, if_pos (by rw [hlen]; rfl), hpick]
  simp only [ha, ht, hb, pyLt, pyLe, pf, pfDiv, pfAdd, pfSub, pfMul, pfBin,
    decide_eq_true_eq, rampPercentage]
  rw [if_neg (not_lt.mpr heps)]
  split_ifs <;> rfl

/-- C1: For the Stress and Tiredness classifiers with thresholds
`low < high`, whenever the denominator band power is `≥ 1e-12` the
returned percentage is the linear ramp of the band-power ratio:
0 at `ratio ≤ low`, 100 at `ratio ≥ high`,
`(ratio - low) / (high - low) * 100` strictly in between; the ramp is a
non-decreasing function of the ratio and always lies in `[0, 100]`. -/
theorem stress_tiredness_ramp_behavior
    (psdS psdT : List (List ℚ) → List (List ℚ) × List ℚ)
    (filt : List ℚ → List ℚ) (cS : StressClassifier)
    (cT : TirednessClassifier)
    (chunkS chunkT pickedS pickedT : List (List ℚ)) (a b aT tT bT : ℚ)
    (hlenS : chunkS.length = 4)
    (hpickS : pick_channels ch_names chunkS cS.channels = .ok pickedS)
    (ha : band_power (psdS (pickedS.map filt)).1
      (psdS (pickedS.map filt)).2 8 13 = some a)
    (hb : band_power (psdS (pickedS.map filt)).1
      (psdS (pickedS.map filt)).2 13 30 = some b)
    (hepsS : EPS ≤ a)
    (hlenT : chunkT.length = 4)
    (hpickT : pick_channels ch_names chunkT cT.channels = .ok pickedT)
    (haT : band_power (psdT pickedT).1 (psdT pickedT).2 8 13 = some aT)
    (htT : band_power (psdT pickedT).1 (psdT pickedT).2 4 8 = some tT)
    (hbT : band_power (psdT pickedT).1 (psdT pickedT).2 13 30 = some bT)
    (hepsT : EPS ≤ bT) :
    get_stress_percentage psdS filt cS chunkS =
      .ok (pf (rampPercentage cS.calm_threshold cS.stress_threshold (b / a)),
        pf (b / a)) ∧
    get_tiredness_percentage psdT cT chunkT =
      .ok (pf (rampPercentage cT.alert_threshold cT.tired_threshold
        ((aT + tT) / bT)), pf ((aT + tT) / bT)) ∧
    (∀ low high : ℚ, low < high →
      (∀ r, r ≤ low → rampPercentage low high r = 0) ∧
      (∀ r, high ≤ r → rampPercentage low high r = 100) ∧
      (∀ r, low < r → r < high →
        rampPercentage low high r = (r - low) / (high - low) * 100) ∧
      Monotone (rampPercentage low high) ∧
      (∀ r, 0 ≤ rampPercentage low high r ∧ rampPercentage low high r ≤ 100)) := by
  refine ⟨get_stress_percentage_ramp psdS filt cS chunkS pickedS a b hlenS
      hpickS ha hb hepsS,
    get_tiredness_percentage_ramp psdT cT chunkT pickedT aT tT bT hlenT
      hpickT haT htT hbT hepsT, ?_⟩
  intro low high hlh
  refine ⟨fun r hr => by rw [rampPercentage, if_pos hr],
    fun r hr => by
      rw [rampPercentage, if_neg (by linarith), if_pos hr],
    fun r hr1 hr2 => by
      rw [rampPercentage, if_neg (by linarith), if_neg (by linarith)],
    rampPercentage_mono hlh,
    fun r => ⟨rampPercentage_nonneg hlh r, rampPercentage_le_100 hlh r⟩⟩

/-- Witness for C1: concrete PSDs with Alpha = 1, Beta = 2 (Stress) and
Alpha = 2, Theta = 1, Beta = 3 (Tiredness), on an all-zero 4-channel
chunk. -/
theorem stress_tiredness_ramp_behavior_witness :
    ([[(0:ℚ)], [0], [0], [0]] : List (List ℚ)).length = 4 ∧
    EPS ≤ (1 : ℚ) ∧ EPS ≤ (3 : ℚ) ∧
    (get_stress_percentage (fun _ => ([[1, 2]], [10, 20])) id
        ⟨250, ["Fp1", "Fp2"], 1 / 2, 3 / 2⟩ [[0], [0], [0], [0]] =
      .ok (pf (rampPercentage (1 / 2) (3 / 2) (2 / 1)), pf (2 / 1)) ∧
    get_tiredness_percentage (fun _ => ([[1, 2, 3]], [5, 10, 20]))
        ⟨250, ["O1", "O2"], 1, 3⟩ [[0], [0], [0], [0]] =
      .ok (pf (rampPercentage 1 3 ((2 + 1) / 3)), pf ((2 + 1) / 3)) ∧
    (∀ low high : ℚ, low < high →
      (∀ r, r ≤ low → rampPercentage low high r = 0) ∧
      (∀ r, high ≤ r → rampPercentage low high r = 100) ∧
      (∀ r, low < r → r < high →
        rampPercentage low high r = (r - low) / (high - low) * 100) ∧
      Monotone (rampPercentage low high) ∧
      (∀ r, 0 ≤ rampPercentage low high r ∧
        rampPercentage low high r ≤ 100))) :=
  ⟨rfl, by norm_num [EPS], by norm_num [EPS],
    stress_tiredness_ramp_behavior
      (fun _ => ([[1, 2]], [10, 20])) (fun _ => ([[1, 2, 3]], [5, 10, 20]))
      id ⟨250, ["Fp1", "Fp2"], 1 / 2, 3 / 2⟩ ⟨250, ["O1", "O2"], 1, 3⟩
      [[0], [0], [0], [0]] [[0], [0], [0], [0]] [[0], [0]] [[0], [0]]
      1 2 2 1 3 rfl
      (by decide)
      (by norm_num [band_power, bandSelect, npMean])
      (by norm_num [band_power, bandSelect, npMean])
      (by norm_num [EPS]) rfl
      (by decide)
      (by norm_num [band_power, bandSelect, npMean])
      (by norm_num [band_power, bandSelect, npMean])
      (by norm_num [band_power, bandSelect, npMean])
      (by norm_num [EPS])⟩

/-- C2: For every input data chunk, if the denominator band power
(Alpha for Stress, Beta for Tiredness) is below `1e-12`, the classifier
returns exactly `(0.0, 0.0)` — the numerator band powers are never
examined. -/
theorem zero_ratio_guard
    (psdS psdT : List (List ℚ) → List (List ℚ) × List ℚ)
    (filt : List ℚ → List ℚ) (cS : StressClassifier)
    (cT : TirednessClassifier)
    (chunkS chunkT pickedS pickedT : List (List ℚ)) (a b : ℚ)
    (hlenS : chunkS.length = 4)
    (hpickS : pick_channels ch_names chunkS cS.channels = .ok pickedS)
    (ha : band_power (psdS (pickedS.map filt)).1
      (psdS (pickedS.map filt)).2 8 13 = some a)
    (hepsS : a < EPS)
    (hlenT : chunkT.length = 4)
    (hpickT : pick_channels ch_names chunkT cT.channels = .ok pickedT)
    (hb : band_power (psdT pickedT).1 (psdT pickedT).2 13 30 = some b)
    (hepsT : b < EPS) :
    get_stress_percentage psdS filt cS chunkS = .ok (pf 0, pf 0) ∧
    get_tiredness_percentage psdT cT chunkT = .ok (pf 0, pf 0) := by
  constructor
  · rw [get_stress_percentage, if_pos (by rw [hlenS]; rfl), hpickS]
    simp only [ha, pyLt, pf, decide_eq_true_eq]
    rw [if_pos hepsS]
  · rw [get_tiredness_percentage, if_pos (by rw [hlenT]; rfl), hpickT]
    simp only [hb, pyLt, pf, decide_eq_true_eq]
    rw [if_pos hepsT]

/-- Witness for C2: PSDs whose denominator band power is exactly 0
(below `1e-12`) while the numerator band powers are nonzero. -/
theorem zero_ratio_guard_witness :
    (0 : ℚ) < EPS ∧
    (get_stress_percentage (fun _ => ([[0, 5]], [10, 20])) id
        ⟨250, ["Fp1", "Fp2"], 1 / 2, 3 / 2⟩ [[0], [0], [0], [0]] =
      .ok (pf 0, pf 0) ∧
    get_tiredness_percentage (fun _ => ([[1, 2, 0]], [5, 10, 20]))
        ⟨250, ["O1", "O2"], 1, 3⟩ [[0], [0], [0], [0]] =
      .ok (pf 0, pf 0)) :=
  ⟨by norm_num [EPS],
    zero_ratio_guard (fun _ => ([[0, 5]], [10, 20]))
      (fun _ => ([[1, 2, 0]], [5, 10, 20])) id
      ⟨250, ["Fp1", "Fp2"], 1 / 2, 3 / 2⟩ ⟨250, ["O1", "O2"], 1, 3⟩
      [[0], [0], [0], [0]] [[0], [0], [0], [0]] [[0], [0]] [[0], [0]]
      0 0 rfl (by decide)
      (by norm_num [band_power, bandSelect, npMean])
      (by norm_num [EPS]) rfl (by decide)
      (by norm_num [band_power, bandSelect, npMean])
      (by norm_num [EPS])⟩

theorem mem_zip_iff_getElem (l1 l2 : List ℚ) (p : ℚ × ℚ) :
    p ∈ l1.zip l2 ↔ ∃ j, ∃ h1 : j < l1.length, ∃ h2 : j < l2.length,
      l1[j] = p.1 ∧ l2[j] = p.2 := by
  rw [List.mem_iff_getElem]
  constructor
  · rintro ⟨j, hj, hp⟩
    rw [List.length_zip, lt_min_iff] at hj
    exact ⟨j, hj.1, hj.2, by rw [← hp, List.getElem_zip],
      by rw [← hp, List.getElem_zip]⟩
  · rintro ⟨j, h1, h2, hp1, hp2⟩
    exact ⟨j, by rw [List.length_zip, lt_min_iff]; exact ⟨h1, h2⟩,
      by rw [List.getElem_zip]; exact Prod.ext hp1 hp2⟩

/-- The selection underlying `band_power` is exactly the PSD entries
whose corresponding frequency lies in `[low, high)`. -/
theorem mem_bandSelect_iff (psd : List (List ℚ)) (freqs : List ℚ)
    (low high v : ℚ) :
    v ∈ bandSelect psd freqs low high ↔
      ∃ row, row ∈ psd ∧ ∃ j, ∃ h1 : j < row.length, ∃ h2 : j < freqs.length,
        low ≤ freqs[j] ∧ freqs[j] < high ∧ row[j] = v := by
  simp only [bandSelect, List.mem_flatten, List.mem_map]
  constructor
  · rintro ⟨l, ⟨row, hrow, rfl⟩, hv⟩
    simp only [List.mem_map, List.mem_filter, decide_eq_true_eq] at hv
    obtain ⟨⟨p, f⟩, ⟨hmem, hcond⟩, rfl⟩ := hv
    rw [mem_zip_iff_getElem] at hmem
    obtain ⟨j, h1, h2, hp1, hp2⟩ := hmem
    exact ⟨row, hrow, j, h1, h2, by rw [hp2]; exact hcond.1,
      by rw [hp2]; exact hcond.2, hp1⟩
  · rintro ⟨row, hrow, j, h1, h2, hlo, hhi, rfl⟩
    refine ⟨_, ⟨row, hrow, rfl⟩, ?_⟩
    simp only [List.mem_map, List.mem_filter, decide_eq_true_eq]
    exact ⟨(row[j], freqs[j]), ⟨(mem_zip_iff_getElem row freqs _).mpr
      ⟨j, h1, h2, rfl, rfl⟩, hlo, hhi⟩, rfl⟩

/-- C4 counterexample: for the PSD `[[1]]` with the single frequency bin
2 Hz, no bin falls in the Alpha band `[8, 13)`; `np.mean` of the empty
selection is NaN (`none`), not the 0 the claim requires. -/
theorem band_power_empty_not_zero :
    band_power [[1]] [2] 8 13 = none ∧ band_power [[1]] [2] 8 13 ≠ pf 0 := by
  have h0 : band_power [[1]] [2] 8 13 = none := by
    norm_num [band_power, bandSelect, npMean]
  exact ⟨h0, by rw [h0]; exact fun h => Option.noConfusion h⟩

/-- C4 amended: the band power of `[low, high)` is the mean of the PSD
values whose corresponding frequency `f` satisfies `low ≤ f < high`
(lower bound inclusive, upper bound exclusive) whenever at least one
frequency bin falls inside the band; when none does, `np.mean` of the
empty selection yields NaN (`none`), not 0. -/
theorem band_power_mean_or_nan (psd : List (List ℚ)) (freqs : List ℚ)
    (low high : ℚ) :
    (∀ v, v ∈ bandSelect psd freqs low high ↔
      ∃ row, row ∈ psd ∧ ∃ j, ∃ h1 : j < row.length, ∃ h2 : j < freqs.length,
        low ≤ freqs[j] ∧ freqs[j] < high ∧ row[j] = v) ∧
    (bandSelect psd freqs low high = [] →
      band_power psd freqs low high = none) ∧
    (bandSelect psd freqs low high ≠ [] →
      band_power psd freqs low high =
        some ((bandSelect psd freqs low high).sum /
          (bandSelect psd freqs low high).length)) := by
  refine ⟨fun v => mem_bandSelect_iff psd freqs low high v, fun he => ?_,
    fun hne => ?_⟩
  · rw [band_power, he]; rfl
  · rw [band_power, npMean, if_neg (by simpa using hne)]

/-- Witness for C4 amended: a band holding the single 9 Hz bin. -/
theorem band_power_mean_or_nan_witness :
    bandSelect [[5]] [9] 8 13 ≠ [] ∧
    band_power [[5]] [9] 8 13 =
      some ((bandSelect [[5]] [9] 8 13).sum /
        (bandSelect [[5]] [9] 8 13).length) :=
  ⟨by norm_num [bandSelect], (band_power_mean_or_nan [[5]] [9] 8 13).2.2
    (by norm_num [bandSelect])⟩

/-- Folding `deque.append` over a stream of samples keeps exactly the
trailing `cap` of the accumulated sequence. -/
theorem foldl_dequeAppend (cap : ℕ) (xs : List (List ℚ)) :
    ∀ b : List (List ℚ), b.length ≤ cap →
      xs.foldl (dequeAppend cap) b =
        (b ++ xs).drop (b.length + xs.length - cap) := by
  induction xs with
  | nil =>
    intro b hb
    simp [Nat.sub_eq_zero_of_le hb]
  | cons x xs ih =>
    intro b hb
    have e1 : dequeAppend cap b x = (b ++ [x]).drop (b.length + 1 - cap) := by
      simp [dequeAppend]
    have hlen : (dequeAppend cap b x).length =
        b.length + 1 - (b.length + 1 - cap) := by
      rw [e1]; simp
    rw [List.foldl_cons, ih _ (by omega), hlen, e1,
      ← List.drop_append_of_le_length (by simp),
      List.drop_drop, List.append_assoc, List.singleton_append]
    simp only [List.length_cons]
    congr 1
    omega

/-- C5: pushing `capacity + k` samples (`capacity = buffer_size =
5.0 s × 250 Hz = 1250`) into the empty rolling deque leaves exactly the
last `capacity` samples in oldest-first push order, and the buffer
length never exceeds the capacity. -/
theorem buffer_eviction (xs : List (List ℚ)) (k : ℕ)
    (h : xs.length = buffer_size + k) :
    xs.foldl (dequeAppend buffer_size) [] = xs.drop k ∧
    ∀ ys : List (List ℚ),
      (ys.foldl (dequeAppend buffer_size) []).length ≤ buffer_size := by
  constructor
  · rw [foldl_dequeAppend buffer_size xs [] (by simp)]
    have e : (List.nil (α := List ℚ)).length + xs.length - buffer_size = k := by
      simp only [List.length_nil]
      omega
    rw [e, List.nil_append]
  · intro ys
    rw [foldl_dequeAppend buffer_size ys [] (by simp)]
    rw [List.nil_append, List.length_drop, List.length_nil]
    omega

/-- Witness for C5 with `k = 1`: 1251 pushed samples. -/
theorem buffer_eviction_witness :
    (List.replicate 1251 ([] : List ℚ)).length = buffer_size + 1 ∧
    ((List.replicate 1251 ([] : List ℚ)).foldl (dequeAppend buffer_size) [] =
      (List.replicate 1251 ([] : List ℚ)).drop 1 ∧
    ∀ ys : List (List ℚ),
      (ys.foldl (dequeAppend buffer_size) []).length ≤ buffer_size) :=
  ⟨by rw [List.length_replicate, buffer_size], buffer_eviction _ 1
    (by rw [List.length_replicate, buffer_size])⟩

theorem chunks8_length : ∀ (l : List (Fin 256)),
    (chunks8 l).length = l.length / 8 := by
  intro l
  induction l using chunks8.induct with
  | case1 a b c d e f g h rest ih =>
    simp only [chunks8, List.length_cons, ih]
    omega
  | case2 l h =>
    match l, h with
    | [], _ => simp [chunks8]
    | [a], _ => simp [chunks8]
    | [a, b], _ => simp [chunks8]
    | [a, b, c], _ => simp [chunks8]
    | [a, b, c, d], _ => simp [chunks8]
    | [a, b, c, d, e], _ => simp [chunks8]
    | [a, b, c, d, e, f], _ => simp [chunks8]
    | [a, b, c, d, e, f, g], _ => simp [chunks8]
    | a :: b :: c :: d :: e :: f :: g :: x :: rest, hf =>
      exact (hf a b c d e f g x rest rfl).elim

/-- C6: a packet whose decoded element count is not divisible by the
channel count — equivalently whose byte length is not a multiple of
`CHANNELS × 8 = 32` bytes, including lengths not divisible by 8 where
`np.frombuffer` raises and the `except` clause swallows the error — is
discarded: `datagram_received` returns normally, triggers no analysis,
and the rolling buffer is exactly what it was before the call. -/
theorem malformed_packet_discarded (w64 : List (Fin 256) → ℚ)
    (buf : List (List ℚ)) (data : List (Fin 256))
    (h : data.length % 32 ≠ 0) :
    datagram_received w64 buf data = (buf, false) := by
  by_cases h8 : data.length % 8 = 0
  · have hok : np_frombuffer w64 data = .ok ((chunks8 data).map w64) := by
      rw [np_frombuffer, if_pos h8]
    have hlen : ((chunks8 data).map w64).length = data.length / 8 := by
      rw [List.length_map, chunks8_length]
    simp only [datagram_received, hok]
    rw [if_neg (by simp only [hlen, CHANNELS]; omega)]
  · have herr : np_frombuffer w64 data = .error .valueError := by
      rw [np_frombuffer, if_neg h8]
    simp only [datagram_received, herr]

/-- Witness for C6: a 1-byte packet (not decodable as float64) and an
8-byte packet (one decoded value, not divisible by the 4 channels);
both leave the buffer `[[9]]` untouched. -/
theorem malformed_packet_discarded_witness :
    ([(0 : Fin 256)].length % 32 ≠ 0) ∧
    (List.replicate 8 (0 : Fin 256)).length % 32 ≠ 0 ∧
    datagram_received (fun _ => 0) [[9]] [(0 : Fin 256)] = ([[9]], false) ∧
    datagram_received (fun _ => 0) [[9]] (List.replicate 8 (0 : Fin 256)) =
      ([[9]], false) :=
  ⟨by decide, by decide, malformed_packet_discarded _ _ _ (by decide),
    malformed_packet_discarded _ _ _ (by decide)⟩

/-- C7: on every analysis cycle, an exception inside any single
classifier is replaced by that indicator's safe default (`False` for
blink, `(0.0, 0.0)` for tiredness and stress, `0.0` for attention)
without affecting any other indicator computed in the same cycle; the
queued record is always a complete `AnalysisResult` carrying the cycle's
timestamp and every indicator field. -/
theorem run_analysis_isolation (ts : ℚ) (e1 e2 e3 e4 : PyErr)
    (bl bl2 : Except PyErr Bool) (t t2 s s2 a a2 : Except PyErr (PyF × PyF)) :
    (run_analysis ts (.error e1) t s a).is_blinking = false ∧
    (run_analysis ts bl (.error e2) s a).tiredness_percentage = pf 0 ∧
    (run_analysis ts bl (.error e2) s a).tiredness_ratio = pf 0 ∧
    (run_analysis ts bl t (.error e3) a).stress_percentage = pf 0 ∧
    (run_analysis ts bl t (.error e3) a).stress_ratio = pf 0 ∧
    (run_analysis ts bl t s (.error e4)).attention_percentage = pf 0 ∧
    (run_analysis ts bl t s a).timestamp = ts ∧
    (run_analysis ts bl t s a).is_blinking =
      (run_analysis ts bl t2 s2 a2).is_blinking ∧
    (run_analysis ts bl t s a).tiredness_percentage =
      (run_analysis ts bl2 t s2 a2).tiredness_percentage ∧
    (run_analysis ts bl t s a).tiredness_ratio =
      (run_analysis ts bl2 t s2 a2).tiredness_ratio ∧
    (run_analysis ts bl t s a).stress_percentage =
      (run_analysis ts bl2 t2 s a2).stress_percentage ∧
    (run_analysis ts bl t s a).stress_ratio =
      (run_analysis ts bl2 t2 s a2).stress_ratio ∧
    (run_analysis ts bl t s a).attention_percentage =
      (run_analysis ts bl2 t2 s2 a).attention_percentage ∧
    (∃ ib tp tr sp sr ap, run_analysis ts bl t s a =
      ⟨ts, ib, tp, tr, sp, sr, ap⟩) :=
  ⟨rfl, rfl, rfl, rfl, rfl, rfl, rfl, rfl, rfl, rfl, rfl, rfl, rfl,
    ⟨_, _, _, _, _, _, rfl⟩⟩

/-- C9 counterexample: constructing either ratio classifier with the
channel list `["Bogus"]` — a name absent from the configured channel
set — succeeds (`__init__` performs no validation), and the mismatch
instead surfaces as a runtime error inside the analysis call, where the
channel-picking step raises. -/
theorem construction_not_validated :
    StressClassifier.init 250 ["Bogus"] (1 / 2) (3 / 2) =
      .ok ⟨250, ["Bogus"], 1 / 2, 3 / 2⟩ ∧
    TirednessClassifier.init 250 ["Bogus"] 1 3 = .ok ⟨250, ["Bogus"], 1, 3⟩ ∧
    get_stress_percentage (fun _ => ([], [])) id ⟨250, ["Bogus"], 1 / 2, 3 / 2⟩
      [[0], [0], [0], [0]] = .error .valueError := by
  refine ⟨rfl, rfl, ?_⟩
  have hp : pick_channels ch_names [[0], [0], [0], [0]]
      (StressClassifier.mk 250 ["Bogus"] (1 / 2) (3 / 2)).channels =
      .error .valueError := by decide
  have hc : ([[(0:ℚ)], [0], [0], [0]] : List (List ℚ)).length =
      ch_names.length := by decide
  rw [get_stress_percentage, if_pos hc, hp]

/-- In a full-channel chunk, the picked selection has one entry per
configured channel name that is present in the channel set. -/
theorem filter_zip_length (names : List String) (picks : List String) :
    ∀ (data : List (List ℚ)), data.length = names.length →
    ((names.zip data).filter (fun nd => picks.contains nd.1)).length =
      (names.filter (fun n => picks.contains n)).length := by
  induction names with
  | nil => intro data h; simp
  | cons n ns ih =>
    intro data h
    cases data with
    | nil => simp at h
    | cons d ds =>
      simp only [List.zip_cons_cons, List.filter_cons]
      have ihx := ih ds (by simpa using h)
      by_cases hc : n ∈ picks
      · simp [hc]
        simpa using ihx
      · simp [hc]
        simpa using ihx

theorem exists_ok_of_ite {α : Type} (c : Prop) [Decidable c] (x y : α) :
    ∃ v, (if c then (Except.ok x : Except PyErr α) else .ok y) = .ok v := by
  split
  · exact ⟨x, rfl⟩
  · exact ⟨y, rfl⟩

/-- C9 amended: channel-set mismatches are NOT rejected at classifier
construction time — `__init__` stores the configuration unvalidated and
always succeeds.  Nor is a partial mismatch reliably rejected at
runtime: the `ordered=False` channel picking of the MNE era this
repository runs on silently drops missing names and the analysis
proceeds normally on the surviving subset; only a fully mismatched
channel list — an empty selection — raises, and only inside the first
analysis call, after stream data has arrived. -/
theorem construction_stores_unvalidated
    (sfreq : ℚ) (channels : List String) (lo hi : ℚ)
    (psdS psdT : List (List ℚ) → List (List ℚ) × List ℚ)
    (filtS : List ℚ → List ℚ) (chunk : List (List ℚ))
    (hlen : chunk.length = ch_names.length) :
    StressClassifier.init sfreq channels lo hi =
      .ok ⟨sfreq, channels, lo, hi⟩ ∧
    TirednessClassifier.init sfreq channels lo hi =
      .ok ⟨sfreq, channels, lo, hi⟩ ∧
    (ch_names.filter (fun n => channels.contains n) = [] →
      get_stress_percentage psdS filtS ⟨sfreq, channels, lo, hi⟩ chunk =
        .error .valueError ∧
      get_tiredness_percentage psdT ⟨sfreq, channels, lo, hi⟩ chunk =
        .error .valueError) ∧
    (ch_names.filter (fun n => channels.contains n) ≠ [] →
      (∃ v, get_stress_percentage psdS filtS ⟨sfreq, channels, lo, hi⟩ chunk =
        .ok v) ∧
      (∃ v, get_tiredness_percentage psdT ⟨sfreq, channels, lo, hi⟩ chunk =
        .ok v)) := by
  have hsel : ((ch_names.zip chunk).filter
      (fun nd => channels.contains nd.1)).length =
      (ch_names.filter (fun n => channels.contains n)).length :=
    filter_zip_length ch_names channels chunk hlen
  refine ⟨rfl, rfl, fun hempty => ?_, fun hne => ?_⟩
  · have hp : pick_channels ch_names chunk channels = .error .valueError := by
      rw [pick_channels]
      rw [if_pos]
      rw [List.isEmpty_iff_length_eq_zero, hsel, hempty]
      rfl
    constructor
    · rw [get_stress_percentage, if_pos hlen,
        show (⟨sfreq, channels, lo, hi⟩ : StressClassifier).channels =
          channels from rfl, hp]
    · rw [get_tiredness_percentage, if_pos hlen,
        show (⟨sfreq, channels, lo, hi⟩ : TirednessClassifier).channels =
          channels from rfl, hp]
  · have hp : pick_channels ch_names chunk channels =
        .ok (((ch_names.zip chunk).filter
          (fun nd => channels.contains nd.1)).map Prod.snd) := by
      rw [pick_channels]
      rw [if_neg]
      rw [List.isEmpty_iff_length_eq_zero, hsel]
      simpa using hne
    constructor
    · rw [get_stress_percentage, if_pos hlen,
        show (⟨sfreq, channels, lo, hi⟩ : StressClassifier).channels =
          channels from rfl, hp]
      exact exists_ok_of_ite _ _ _
    · rw [get_tiredness_percentage, if_pos hlen,
        show (⟨sfreq, channels, lo, hi⟩ : TirednessClassifier).channels =
          channels from rfl, hp]
      exact exists_ok_of_ite _ _ _

/-- Witness for C9 amended at the partially mismatched configuration
`["Fp1", "Bogus"]`: construction succeeds, and since the selection is
nonempty the silently-reduced analysis also returns normally. -/
theorem construction_stores_unvalidated_witness :
    ([[(0:ℚ)], [0], [0], [0]] : List (List ℚ)).length = ch_names.length ∧
    (StressClassifier.init 250 ["Fp1", "Bogus"] (1 / 2) (3 / 2) =
      .ok ⟨250, ["Fp1", "Bogus"], 1 / 2, 3 / 2⟩ ∧
    TirednessClassifier.init 250 ["Fp1", "Bogus"] (1 / 2) (3 / 2) =
      .ok ⟨250, ["Fp1", "Bogus"], 1 / 2, 3 / 2⟩ ∧
    (ch_names.filter (fun n =>
        (["Fp1", "Bogus"] : List String).contains n) = [] →
      get_stress_percentage (fun _ => ([], [])) id
        ⟨250, ["Fp1", "Bogus"], 1 / 2, 3 / 2⟩ [[0], [0], [0], [0]] =
        .error .valueError ∧
      get_tiredness_percentage (fun _ => ([], []))
        ⟨250, ["Fp1", "Bogus"], 1 / 2, 3 / 2⟩ [[0], [0], [0], [0]] =
        .error .valueError) ∧
    (ch_names.filter (fun n =>
        (["Fp1", "Bogus"] : List String).contains n) ≠ [] →
      (∃ v, get_stress_percentage (fun _ => ([], [])) id
        ⟨250, ["Fp1", "Bogus"], 1 / 2, 3 / 2⟩ [[0], [0], [0], [0]] =
        .ok v) ∧
      (∃ v, get_tiredness_percentage (fun _ => ([], []))
        ⟨250, ["Fp1", "Bogus"], 1 / 2, 3 / 2⟩ [[0], [0], [0], [0]] =
        .ok v))) :=
  ⟨by decide,
    construction_stores_unvalidated 250 ["Fp1", "Bogus"] (1 / 2) (3 / 2)
      (fun _ => ([], [])) (fun _ => ([], [])) id [[0], [0], [0], [0]]
      (by decide)⟩

/-- C10: the top-level `BlinkingClassifier.__init__` stores the channel
labels under `channel_names` while `detect_blink_in_chunk` reads
`self.ch_names` (line 38), so every detection call raises
`AttributeError` before touching the data; the orchestrator's blink
`except` branch substitutes its default, hence every record it publishes
has `is_blinking = False`, for every packet stream, PSD backend, filter
and buffer contents. -/
theorem published_is_blinking_always_false
    (filt : List ℚ → List ℚ) (sfreq : ℚ) (channel : String)
    (threshold_uv : ℚ) (refractory_samples : ℕ)
    (data_window : List (List ℚ)) (analysis : ℕ)
    (psdS psdT : List (List ℚ) → List (List ℚ) × List ℚ)
    (filtS : List ℚ → List ℚ) (ts : ℚ) (buffer : List (List ℚ)) :
    src_detect_blink_in_chunk filt sfreq channel threshold_uv
      refractory_samples data_window analysis = .error .attributeError ∧
    (run_analysis_main psdS psdT filtS filt ts buffer).is_blinking = false :=
  ⟨rfl, rfl⟩

theorem pySliceIdx_ofNat (len n : ℕ) : pySliceIdx len (n : ℤ) = min n len := by
  rw [pySliceIdx, if_neg (by omega)]
  simp

/-- The filtered target-channel signal has the width of the window when
the filter is length-preserving. -/
theorem blink_channel_data_uv_length
    (filt : List ℚ → List ℚ) (data_window : List (List ℚ)) (i W : ℕ)
    (hi : i < data_window.length)
    (hfilt : ∀ l, (filt l).length = l.length)
    (hW : ∀ row ∈ data_window, row.length = W) :
    (blink_channel_data_uv filt data_window i).length = W := by
  rw [blink_channel_data_uv]
  rw [List.getD_eq_getElem _ _ (by simpa using hi), List.getElem_map,
    List.getElem_map]
  rw [List.length_map, hfilt, List.length_map]
  exact hW _ (List.getElem_mem hi)

/-- For `analysis < W` the Python slice
`[margin : margin + analysis]` with `margin = (W - analysis) // 2` is
the centred drop/take segment. -/
theorem blink_central_data_of_lt (chan : List ℚ) (analysis W : ℕ)
    (hlen : chan.length = W) (hWa : analysis < W) :
    blink_central_data chan analysis =
      (chan.drop ((W - analysis) / 2)).take analysis := by
  rw [blink_central_data, hlen]
  have hm : Int.fdiv ((W : ℤ) - (analysis : ℤ)) 2 =
      (((W - analysis) / 2 : ℕ) : ℤ) := by
    rw [Int.fdiv_eq_ediv _ (by omega)]
    omega
  rw [hm, pySlice, hlen]
  rw [show (((W - analysis) / 2 : ℕ) : ℤ) + (analysis : ℤ) =
    (((W - analysis) / 2 + analysis : ℕ) : ℤ) by omega]
  rw [pySliceIdx_ofNat, pySliceIdx_ofNat]
  rw [Nat.min_eq_left (by omega), Nat.min_eq_left (by omega)]
  rw [List.drop_take]
  congr 1
  omega

/-- C3: for every 4-channel window of width `W` strictly greater than
`analysis_duration_samples` (filter length-preserving, target channel
present), `detect_blink_in_chunk` returns normally, and it returns
`true` if and only if `find_peaks` — local maxima of height
`≥ threshold_uv` thinned to the minimum inter-peak distance
`refractory_samples` — finds at least one peak in the absolute value of
the centred `analysis_duration_samples`-long segment of the filtered
target-channel signal. -/
theorem detect_blink_iff_peak
    (filt : List ℚ → List ℚ) (c : BlinkingClassifier)
    (data_window : List (List ℚ)) (W analysis_duration_samples i : ℕ)
    (hlen : data_window.length = ch_names.length)
    (hW : ∀ row ∈ data_window, row.length = W)
    (hfilt : ∀ l, (filt l).length = l.length)
    (hidx : List.indexOf? c.channel ch_names = some i)
    (hWa : analysis_duration_samples < W) :
    detect_blink_in_chunk filt c data_window analysis_duration_samples =
      .ok (decide (find_peaks
        ((((blink_channel_data_uv filt data_window i).drop
          ((W - analysis_duration_samples) / 2)).take
            analysis_duration_samples).map (fun q => |q|))
        c.threshold_uv c.refractory_samples ≠ [])) := by
  have hi : i < data_window.length := by
    rw [hlen]
    rw [List.indexOf?, List.findIdx?_eq_some_iff_findIdx_eq] at hidx
    exact hidx.1
  rw [detect_blink_in_chunk, detect_blink_core, if_pos hlen, hidx]
  show Except.ok
    (blink_decision filt c data_window analysis_duration_samples i) = _
  unfold blink_decision
  rw [blink_central_data_of_lt _ _ W
    (blink_channel_data_uv_length filt data_window i W hi hfilt hW) hWa]
  simp [List.length_pos]

/-- Witness for C3: a 5-sample window with a 100 µV spike dead centre,
analysed over the central 3 samples. -/
theorem detect_blink_iff_peak_witness :
    (3 < 5) ∧ List.indexOf? "Fp1" ch_names = some 0 ∧
    detect_blink_in_chunk id ⟨250, "Fp1", 75, 125⟩
      [[0, 0, 100, 0, 0], [0, 0, 0, 0, 0], [0, 0, 0, 0, 0],
        [0, 0, 0, 0, 0]] 3 =
      .ok (decide (find_peaks
        ((((blink_channel_data_uv id
          [[0, 0, 100, 0, 0], [0, 0, 0, 0, 0], [0, 0, 0, 0, 0],
            [0, 0, 0, 0, 0]] 0).drop ((5 - 3) / 2)).take 3).map
          (fun q => |q|)) 75 125 ≠ [])) :=
  ⟨by decide, by decide,
    detect_blink_iff_peak id ⟨250, "Fp1", 75, 125⟩
      [[0, 0, 100, 0, 0], [0, 0, 0, 0, 0], [0, 0, 0, 0, 0],
        [0, 0, 0, 0, 0]] 5 3 0
      (by decide) (by decide) (fun l => rfl) (by decide) (by decide)⟩

/-- C8 counterexample: a window of width `W = 3` analysed with
`analysis_duration_samples = 3` (so `W ≤ analysis_duration_samples`)
does NOT fail: `margin = 0`, the full filtered signal is scanned, and
the call returns the Boolean `true` — no `WindowTooShortError`
exists anywhere in the code. -/
theorem no_window_too_short_error :
    detect_blink_in_chunk id ⟨250, "Fp1", 75, 125⟩
      [[0, 100, 0], [0, 0, 0], [0, 0, 0], [0, 0, 0]] 3 = .ok true := by
  have hidx : List.indexOf? "Fp1" ch_names = some 0 := by decide
  have h1 : blink_channel_data_uv id [[0, 100, 0], [0, 0, 0], [0, 0, 0],
      [0, 0, 0]] 0 = [0, 100, 0] := by
    norm_num [blink_channel_data_uv]
  have h2 : blink_central_data [(0:ℚ), 100, 0] 3 = [0, 100, 0] := by
    norm_num [blink_central_data, pySlice, pySliceIdx]
  have h3 : find_peaks [|(0:ℚ)|, |100|, |0|] 75 125 = [1] := by
    norm_num [find_peaks, local_maxima_midpoints, lmLoop, scanAhead,
      select_by_peak_distance, argsortAsc, List.range_succ,
      List.mergeSort_nil, List.mergeSort_singleton]
  rw [detect_blink_in_chunk, detect_blink_core, hidx]
  simp only [blink_decision, h1, h2, List.map_cons, List.map_nil, h3]
  norm_num [ch_names]

/-- C8 amended: for every window with the 4 configured channels and a
valid target channel, `detect_blink_in_chunk` returns a Boolean result
for *every* `analysis_duration_samples`, including
`W ≤ analysis_duration_samples`: the margin
`(W - analysis_duration_samples) // 2` is then `≤ 0` and Python's
negative-index slice clamping still produces a segment, so no error of
any kind — in particular no `WindowTooShortError`, which does not exist
in the code — is raised. -/
theorem detect_blink_total
    (filt : List ℚ → List ℚ) (c : BlinkingClassifier)
    (data_window : List (List ℚ)) (analysis_duration_samples i : ℕ)
    (hlen : data_window.length = ch_names.length)
    (hidx : List.indexOf? c.channel ch_names = some i) :
    ∃ b, detect_blink_in_chunk filt c data_window
      analysis_duration_samples = .ok b := by
  rw [detect_blink_in_chunk, detect_blink_core, if_pos hlen, hidx]
  exact ⟨_, rfl⟩

/-- Witness for C8 amended: a width-3 window analysed with
`analysis_duration_samples = 5 > 3 = W` still returns a Boolean. -/
theorem detect_blink_total_witness :
    ([[(0:ℚ), 100, 0], [0, 0, 0], [0, 0, 0], [0, 0, 0]] :
      List (List ℚ)).length = ch_names.length ∧
    List.indexOf? "Fp1" ch_names = some 0 ∧
    ∃ b, detect_blink_in_chunk id ⟨250, "Fp1", 75, 125⟩
      [[0, 100, 0], [0, 0, 0], [0, 0, 0], [0, 0, 0]] 5 = .ok b :=
  ⟨by decide, by decide,
    detect_blink_total id ⟨250, "Fp1", 75, 125⟩
      [[0, 100, 0], [0, 0, 0], [0, 0, 0], [0, 0, 0]] 5 0
      (by decide) (by decide)⟩
